import Mathlib

/-!
# Verification of the hummingbot-dashboard repository

Shallow embedding of the two source files:

* `hummingbot_files/templates/master_bot_conf/controllers/bollingrid.py`:
  the `BollinGrid` market-making controller with its decision functions
  `refresh_order_condition`, `early_stop_condition`, `cooldown_condition`
  and the position-sizing function `get_position_config`.
* `pages/9_⚙️_Backtesting.py`: the dashboard page, modelled as the ordered
  trace of framework interactions it performs.

Python numeric values (floats and Decimals) are modelled as rationals `ℚ`;
the wall clock `time.time()` is passed as an explicit parameter `now`;
framework data that the controller merely reads (`get_close_price`,
`get_price_and_spread_multiplier`) is passed as parameters.  Optional
Python values are `Option ℚ`, and Python truthiness of such a value
(`None` and `0` are falsy) is `pyTruthy`.
-/

namespace BollinGrid

/-- The trade side type `hummingbot.core.data_type.common.TradeType` (the two values used). -/
inductive TradeType where
  | BUY
  | SELL
deriving DecidableEq, Repr

/-- Order types appearing in `TripleBarrierConf` (pass-through values). -/
inductive OrderType where
  | MARKET
  | LIMIT
  | LIMIT_MAKER
deriving DecidableEq, Repr

/-- Python truthiness of an optional numeric value: `None` and `0` are
falsy, every other number is truthy. -/
def pyTruthy : Option ℚ → Bool
  | none => false
  | some x => x ≠ 0

/-- The `TrailingStop` record from the position-executor data types: built in
`get_position_config` from the two trailing-stop fields of the
triple-barrier configuration. -/
structure TrailingStop where
  activation_price_delta : Option ℚ
  trailing_delta : Option ℚ
deriving DecidableEq, Repr

/-- The triple-barrier configuration carried by an `OrderLevel`
(the fields read by `get_position_config`). -/
structure TripleBarrierConf where
  take_profit : ℚ
  stop_loss : ℚ
  time_limit : ℚ
  trailing_stop_activation_price_delta : Option ℚ
  trailing_stop_trailing_delta : Option ℚ
  open_order_type : OrderType
  take_profit_order_type : OrderType
deriving DecidableEq, Repr

/-- An `OrderLevel` from the strategy-framework data types (the fields the
controller reads). -/
structure OrderLevel where
  side : TradeType
  order_refresh_time : ℚ
  cooldown_time : ℚ
  spread_factor : ℚ
  order_amount_usd : ℚ
  triple_barrier_conf : TripleBarrierConf
deriving DecidableEq, Repr

/-- The `PositionConfig` record from the position-executor data types (the fields
`get_position_config` fills in). -/
structure PositionConfig where
  timestamp : ℚ
  trading_pair : String
  exchange : String
  side : TradeType
  amount : ℚ
  take_profit : ℚ
  stop_loss : ℚ
  time_limit : ℚ
  entry_price : ℚ
  open_order_type : OrderType
  take_profit_order_type : OrderType
  trailing_stop : Option TrailingStop
  leverage : ℚ
deriving DecidableEq, Repr

/-- The view of a `PositionExecutor` read by the decision functions: its
position config (for its timestamp) and its optional close timestamp. -/
structure PositionExecutor where
  position_config : PositionConfig
  close_timestamp : Option ℚ
deriving DecidableEq, Repr

/-- The `BollinGridConfig` strategy parameters (with the inherited market-making fields the
controller reads: `exchange`, `trading_pair`, `leverage`). -/
structure BollinGridConfig where
  exchange : String
  trading_pair : String
  leverage : ℚ
  strategy_name : String := "bollinger_grid"
  bb_length : ℕ := 12
  bb_long_threshold : ℚ := 7/10
  bb_short_threshold : ℚ := 3/10
  natr_length : ℕ := 14
deriving DecidableEq, Repr

/-- The method `BollinGrid.refresh_order_condition`: the wall clock `time.time()` is
the parameter `now`. -/
def refresh_order_condition (executor : PositionExecutor)
    (order_level : OrderLevel) (now : ℚ) : Bool :=
  if executor.position_config.timestamp + order_level.order_refresh_time > now then
    false
  else
    true

/-- The method `BollinGrid.early_stop_condition`. -/
def early_stop_condition (_executor : PositionExecutor)
    (_order_level : OrderLevel) : Bool :=
  false

/-- The method `BollinGrid.cooldown_condition`: the Python guard is
`executor.close_timestamp and executor.close_timestamp + cooldown > time.time()`,
so a `None` or zero close timestamp short-circuits to `False`. -/
def cooldown_condition (executor : PositionExecutor)
    (order_level : OrderLevel) (now : ℚ) : Bool :=
  match executor.close_timestamp with
  | none => false
  | some ct =>
    if ct ≠ 0 ∧ ct + order_level.cooldown_time > now then true else false

/-- The method `BollinGrid.get_position_config`.  The external framework reads are
parameters: `close_price` is `get_close_price(...)`, and `spread_multiplier`
and `active_side` come from `get_price_and_spread_multiplier()` (its first
component `bbp` is destructured but unused in the source).  `now` is the
`time.time()` stamped into the config.  The Python function returns `None`
implicitly when the active side does not match the level's side, hence the
`Option` result. -/
def get_position_config (config : BollinGridConfig) (close_price : ℚ)
    (spread_multiplier : ℚ) (active_side : ℤ) (now : ℚ)
    (order_level : OrderLevel) : Option PositionConfig :=
  let current_side : ℤ := if order_level.side = TradeType.BUY then 1 else -1
  if active_side = current_side then
    let sm : ℚ :=
      if order_level.side = TradeType.SELL then spread_multiplier
      else -spread_multiplier
    let order_price := close_price * (1 + order_level.spread_factor * sm)
    let amount := order_level.order_amount_usd / order_price
    let trailing_stop : Option TrailingStop :=
      -- the source tests `trailing_stop_trailing_delta` twice in its guard
      if pyTruthy order_level.triple_barrier_conf.trailing_stop_trailing_delta ∧
          pyTruthy order_level.triple_barrier_conf.trailing_stop_trailing_delta then
        some { activation_price_delta :=
                 order_level.triple_barrier_conf.trailing_stop_activation_price_delta,
               trailing_delta :=
                 order_level.triple_barrier_conf.trailing_stop_trailing_delta }
      else
        none
    some { timestamp := now,
           trading_pair := config.trading_pair,
           exchange := config.exchange,
           side := order_level.side,
           amount := amount,
           take_profit := order_level.triple_barrier_conf.take_profit * sm,
           stop_loss := order_level.triple_barrier_conf.stop_loss,
           time_limit := order_level.triple_barrier_conf.time_limit,
           entry_price := order_price,
           open_order_type := order_level.triple_barrier_conf.open_order_type,
           take_profit_order_type :=
             order_level.triple_barrier_conf.take_profit_order_type,
           trailing_stop := trailing_stop,
           leverage := config.leverage }
  else
    none

/-- Division with an explicit zero-divisor check, used to express that the
Python division `order_amount_usd / order_price` cannot raise. -/
def divChecked (a b : ℚ) : Option ℚ :=
  if b = 0 then none else some (a / b)

/-- The function `get_position_config` with the single partial operation (the division
computing `amount`) made explicit: the outer `none` marks a failing run,
`some r` a run that completes with Python result `r`. -/
def get_position_config_checked (config : BollinGridConfig) (close_price : ℚ)
    (spread_multiplier : ℚ) (active_side : ℤ) (now : ℚ)
    (order_level : OrderLevel) : Option (Option PositionConfig) :=
  let current_side : ℤ := if order_level.side = TradeType.BUY then 1 else -1
  if active_side = current_side then
    let sm : ℚ :=
      if order_level.side = TradeType.SELL then spread_multiplier
      else -spread_multiplier
    let order_price := close_price * (1 + order_level.spread_factor * sm)
    match divChecked order_level.order_amount_usd order_price with
    | none => none
    | some amount =>
      let trailing_stop : Option TrailingStop :=
        if pyTruthy order_level.triple_barrier_conf.trailing_stop_trailing_delta ∧
            pyTruthy order_level.triple_barrier_conf.trailing_stop_trailing_delta then
          some { activation_price_delta :=
                   order_level.triple_barrier_conf.trailing_stop_activation_price_delta,
                 trailing_delta :=
                   order_level.triple_barrier_conf.trailing_stop_trailing_delta }
        else
          none
      some (some { timestamp := now,
                   trading_pair := config.trading_pair,
                   exchange := config.exchange,
                   side := order_level.side,
                   amount := amount,
                   take_profit := order_level.triple_barrier_conf.take_profit * sm,
                   stop_loss := order_level.triple_barrier_conf.stop_loss,
                   time_limit := order_level.triple_barrier_conf.time_limit,
                   entry_price := order_price,
                   open_order_type := order_level.triple_barrier_conf.open_order_type,
                   take_profit_order_type :=
                     order_level.triple_barrier_conf.take_profit_order_type,
                   trailing_stop := trailing_stop,
                   leverage := config.leverage })
  else
    some none

end BollinGrid

namespace BacktestingPage

/-- The keyword arguments of the `run_backtesting` call on the page. -/
structure BacktestingParams where
  order_amount : ℚ
  leverage : ℚ
  initial_portfolio : ℚ
  take_profit_multiplier : ℚ
  stop_loss_multiplier : ℚ
  time_limit : ℚ
  std_span : Option ℚ
deriving DecidableEq, Repr

/-- Symbolic values produced by the framework calls of the page.  The
framework internals are external, so a value records which call produced
it and from which arguments. -/
inductive Val where
  | pyNone
  | dataframe (exchange trading_pair interval : String)
  | statArb (trading_pair : String) (periods : ℕ) (deviation_threshold : ℚ)
  | backtesting (strategy : Val)
  | positions (runner : Val) (params : BacktestingParams)
  | analysis (positions candles_df : Val)
  | textReport (a : Val)
  | figure (a : Val)
deriving DecidableEq, Repr

/-- One framework interaction of the page, in program order. -/
inductive Action where
  | fetchData (df : Val)
  | construct (obj : Val)
  | callMethod (receiver : Val) (method : String) (result : Val)
  | renderText (v : Val)
  | renderChart (v : Val)
deriving DecidableEq, Repr

/-- The fetched dataframe `df_to_show = data_management.get_dataframe(exchange='binance_perpetual',
trading_pair="ETH-USDT", interval='1h')`. -/
def df_to_show : Val := Val.dataframe ("binance_perpetual") ("ETH-USDT") ("1h")

/-- The strategy object `strategy = StatArb(trading_pair="ETH-USDT", periods=24,
deviation_threshold=1.5)`. -/
def strategy : Val := Val.statArb ("ETH-USDT") 24 (3/2)

/-- The runner object `backtesting = Backtesting(strategy=strategy)`. -/
def backtesting : Val := Val.backtesting strategy

/-- The arguments of the `run_backtesting` call: `order_amount=50,
leverage=20, initial_portfolio=100, take_profit_multiplier=3.0,
stop_loss_multiplier=1.5, time_limit=60*60*24, std_span=None`. -/
def run_params : BacktestingParams :=
  { order_amount := 50, leverage := 20, initial_portfolio := 100,
    take_profit_multiplier := 3, stop_loss_multiplier := 3/2,
    time_limit := 60 * 60 * 24, std_span := none }

/-- The run result `positions = backtesting.run_backtesting(...)`. -/
def positions : Val := Val.positions backtesting run_params

/-- The analysis object `backtesting_analysis = BacktestingAnalysis(positions=positions,
candles_df=df_to_show)`. -/
def backtesting_analysis : Val := Val.analysis positions df_to_show

/-- The page as the ordered trace of its framework interactions
(`create_base_figure(volume=False, positions=True, extra_rows=1)` and
`add_trade_pnl(row=2)` mutate the analysis object and return `None`;
their arguments are elided). -/
def pageTrace : List Action :=
  [ Action.fetchData df_to_show,
    Action.construct strategy,
    Action.construct backtesting,
    Action.callMethod backtesting ("run_backtesting") positions,
    Action.construct backtesting_analysis,
    Action.callMethod backtesting_analysis ("create_base_figure") Val.pyNone,
    Action.callMethod backtesting_analysis ("add_trade_pnl") Val.pyNone,
    Action.callMethod backtesting_analysis ("text_report")
      (Val.textReport backtesting_analysis),
    Action.renderText (Val.textReport backtesting_analysis),
    Action.callMethod backtesting_analysis ("figure")
      (Val.figure backtesting_analysis),
    Action.renderChart (Val.figure backtesting_analysis) ]

/-- Whether an action constructs a framework object. -/
def isConstruct : Action → Bool
  | Action.construct _ => true
  | _ => false

/-- Whether an action calls a framework method. -/
def isCallMethod : Action → Bool
  | Action.callMethod _ _ _ => true
  | _ => false

end BacktestingPage

namespace BollinGrid

/-- A sample triple-barrier configuration used to instantiate theorems. -/
def sampleTBC : TripleBarrierConf :=
  { take_profit := 1/50, stop_loss := 1/100, time_limit := 3600,
    trailing_stop_activation_price_delta := none,
    trailing_stop_trailing_delta := none,
    open_order_type := OrderType.LIMIT,
    take_profit_order_type := OrderType.MARKET }

/-- A sample BUY order level used to instantiate theorems. -/
def sampleLevel : OrderLevel :=
  { side := TradeType.BUY, order_refresh_time := 50, cooldown_time := 60,
    spread_factor := 1, order_amount_usd := 100,
    triple_barrier_conf := sampleTBC }

/-- A sample controller configuration used to instantiate theorems. -/
def sampleConfig : BollinGridConfig :=
  { exchange := "binance_perpetual", trading_pair := "ETH-USDT",
    leverage := 20 }

/-- A sample position config (timestamp 10) used to build a sample executor. -/
def samplePositionConfig : PositionConfig :=
  { timestamp := 10, trading_pair := "ETH-USDT",
    exchange := "binance_perpetual", side := TradeType.BUY, amount := 1,
    take_profit := 1/50, stop_loss := 1/100, time_limit := 3600,
    entry_price := 100, open_order_type := OrderType.LIMIT,
    take_profit_order_type := OrderType.MARKET, trailing_stop := none,
    leverage := 20 }

/-- A sample executor used to instantiate theorems. -/
def sampleExecutor : PositionExecutor :=
  { position_config := samplePositionConfig, close_timestamp := some 100 }

/-- The position config `get_position_config sampleConfig 100 (1/100) 1 10
sampleLevel` produces: entry price `100 * (1 + 1 * (-(1/100))) = 99`,
amount `100 / 99`, take profit `(1/50) * (-(1/100)) = -(1/5000)`. -/
def sampleResultConfig : PositionConfig :=
  { timestamp := 10, trading_pair := "ETH-USDT",
    exchange := "binance_perpetual", side := TradeType.BUY,
    amount := 100/99, take_profit := -(1/5000), stop_loss := 1/100,
    time_limit := 3600, entry_price := 99,
    open_order_type := OrderType.LIMIT,
    take_profit_order_type := OrderType.MARKET, trailing_stop := none,
    leverage := 20 }

end BollinGrid

namespace BollinGrid

/-- C2: `refresh_order_condition` returns `False` when the executor's
position config timestamp plus the order level's refresh time is strictly
greater than the current time, and `True` otherwise. -/
theorem refresh_order_condition_spec (executor : PositionExecutor)
    (order_level : OrderLevel) (now : ℚ) :
    refresh_order_condition executor order_level now =
      decide (executor.position_config.timestamp +
        order_level.order_refresh_time ≤ now) := by
  unfold refresh_order_condition
  by_cases h : executor.position_config.timestamp +
      order_level.order_refresh_time > now
  · rw [if_pos h]
    exact (decide_eq_false (not_le.mpr h)).symm
  · rw [if_neg h]
    exact (decide_eq_true (not_lt.mp h)).symm

/-- C3: `cooldown_condition` returns `True` exactly when the executor has a
truthy close timestamp and that close timestamp plus the order level's
cooldown time is strictly greater than the current time; otherwise it
returns `False`. -/
theorem cooldown_condition_spec (executor : PositionExecutor)
    (order_level : OrderLevel) (now : ℚ) :
    cooldown_condition executor order_level now =
      (pyTruthy executor.close_timestamp &&
        decide (executor.close_timestamp.getD 0 +
          order_level.cooldown_time > now)) := by
  unfold cooldown_condition pyTruthy
  cases hct : executor.close_timestamp with
  | none => simp
  | some ct =>
    simp only [Option.getD_some]
    by_cases h0 : ct = 0
    · subst h0
      simp
    · by_cases h1 : ct + order_level.cooldown_time > now
      · simp [h0, h1]
      · simp [h0, h1]

/-- C6: `early_stop_condition` returns `False` for every executor and
order level. -/
theorem early_stop_condition_false (executor : PositionExecutor)
    (order_level : OrderLevel) :
    early_stop_condition executor order_level = false := rfl

/-- C4: `get_position_config` returns a position config exactly when the
active side equals `+1` for a BUY level and `-1` for a SELL level; in
every other case it returns `None`. -/
theorem get_position_config_some_iff_side (config : BollinGridConfig)
    (close_price spread_multiplier : ℚ) (active_side : ℤ) (now : ℚ)
    (order_level : OrderLevel) :
    (get_position_config config close_price spread_multiplier active_side
        now order_level).isSome =
      decide (active_side =
        if order_level.side = TradeType.BUY then (1 : ℤ) else -1) := by
  unfold get_position_config
  by_cases h : active_side =
      (if order_level.side = TradeType.BUY then (1 : ℤ) else -1)
  · simp [h]
  · simp [h]

end BollinGrid

namespace BollinGrid

/-- Helper: the two trade sides are distinct. -/
theorem buy_ne_sell : TradeType.BUY ≠ TradeType.SELL :=
  fun hcontra => TradeType.noConfusion hcontra

/-- Helper: evaluation of `get_position_config` at the sample input (BUY
level, close price `100`, spread multiplier `1/100`, active side `1`). -/
theorem sampleResult_eq :
    get_position_config sampleConfig 100 (1/100) 1 10 sampleLevel =
      some sampleResultConfig := by
  unfold get_position_config sampleConfig sampleLevel sampleTBC sampleResultConfig pyTruthy
  norm_num [buy_ne_sell]

/-- C1: whenever `get_position_config` returns a position config (the
level's side matches the computed active side), its entry price is
`close_price * (1 + spread_factor * m)` with `m = spread_multiplier` for a
SELL level and `m = -spread_multiplier` for a BUY level, and its amount is
`order_amount_usd` divided by that entry price. -/
theorem get_position_config_entry_amount (config : BollinGridConfig)
    (close_price spread_multiplier : ℚ) (active_side : ℤ) (now : ℚ)
    (order_level : OrderLevel) (pc : PositionConfig)
    (h : get_position_config config close_price spread_multiplier
        active_side now order_level = some pc) :
    pc.entry_price = close_price * (1 + order_level.spread_factor *
        (if order_level.side = TradeType.SELL then spread_multiplier
         else -spread_multiplier)) ∧
    pc.amount = order_level.order_amount_usd / pc.entry_price := by
  simp only [get_position_config] at h
  split at h <;> split at h <;>
    first
      | exact Option.noConfusion h
      | (injection h with h; subst h; exact ⟨rfl, rfl⟩)

/-- Witness for C1 at a concrete input: the BUY level `sampleLevel` with
close price `100`, spread multiplier `1/100`, active side `1`. -/
theorem get_position_config_entry_amount_witness :
    sampleResultConfig.entry_price = 100 * (1 + sampleLevel.spread_factor *
        (if sampleLevel.side = TradeType.SELL then (1/100 : ℚ)
         else -(1/100))) ∧
    sampleResultConfig.amount =
      sampleLevel.order_amount_usd / sampleResultConfig.entry_price :=
  get_position_config_entry_amount sampleConfig 100 (1/100) 1 10
    sampleLevel sampleResultConfig sampleResult_eq

/-- C5: for a BUY level with nonnegative spread multiplier and nonnegative
configured take profit, any position config returned by
`get_position_config` has a take profit that is less than or equal to
zero, because the spread multiplier is negated on the BUY side before
being multiplied into the take profit. -/
theorem buy_take_profit_nonpos (config : BollinGridConfig)
    (close_price spread_multiplier : ℚ) (active_side : ℤ) (now : ℚ)
    (order_level : OrderLevel) (pc : PositionConfig)
    (hside : order_level.side = TradeType.BUY)
    (hsm : 0 ≤ spread_multiplier)
    (htp : 0 ≤ order_level.triple_barrier_conf.take_profit)
    (h : get_position_config config close_price spread_multiplier
        active_side now order_level = some pc) :
    pc.take_profit ≤ 0 := by
  simp only [get_position_config, hside, reduceCtorEq, if_false,
    eq_self_iff_true, if_true] at h
  split at h
  · injection h with h
    subst h
    exact mul_nonpos_of_nonneg_of_nonpos htp (neg_nonpos.mpr hsm)
  · exact Option.noConfusion h

/-- Witness for C5 at a concrete input: `sampleLevel` is a BUY level with
take profit `1/50 ≥ 0` and the spread multiplier `1/100 ≥ 0`. -/
theorem buy_take_profit_nonpos_witness : sampleResultConfig.take_profit ≤ 0 :=
  buy_take_profit_nonpos sampleConfig 100 (1/100) 1 10 sampleLevel
    sampleResultConfig rfl (by norm_num)
    (by norm_num [sampleLevel, sampleTBC]) sampleResult_eq

/-- C10: under the precondition that the computed order price is nonzero,
the run of `get_position_config` with its division made explicit cannot
fail: it completes and returns exactly what `get_position_config`
returns (the three Boolean decision functions are total by
construction). -/
theorem get_position_config_checked_total (config : BollinGridConfig)
    (close_price spread_multiplier : ℚ) (active_side : ℤ) (now : ℚ)
    (order_level : OrderLevel)
    (h : close_price * (1 + order_level.spread_factor *
        (if order_level.side = TradeType.SELL then spread_multiplier
         else -spread_multiplier)) ≠ 0) :
    get_position_config_checked config close_price spread_multiplier
        active_side now order_level =
      some (get_position_config config close_price spread_multiplier
        active_side now order_level) := by
  unfold get_position_config_checked get_position_config divChecked
  by_cases hC : active_side =
      (if order_level.side = TradeType.BUY then (1 : ℤ) else -1)
  · simp only [if_pos hC, if_neg h]
  · simp only [if_neg hC]

/-- Witness for C10 at a concrete input: with close price `100`, spread
multiplier `1/100` and the BUY level `sampleLevel`, the order price is
`99 ≠ 0` and the checked run completes. -/
theorem get_position_config_checked_total_witness :
    get_position_config_checked sampleConfig 100 (1/100) 1 10 sampleLevel =
      some (get_position_config sampleConfig 100 (1/100) 1 10 sampleLevel) :=
  get_position_config_checked_total sampleConfig 100 (1/100) 1 10
    sampleLevel (by norm_num [sampleLevel, sampleTBC, buy_ne_sell])

/-- Counterexample to C7: with the executor and order level fixed, the
result of `refresh_order_condition` still changes as the wall clock
advances, so the refresh decision is not determined by its executor and
order-level inputs alone. -/
theorem decision_functions_depend_on_clock :
    ¬ ∀ now nowLater : ℚ,
        refresh_order_condition sampleExecutor sampleLevel now =
          refresh_order_condition sampleExecutor sampleLevel nowLater := by
  intro h
  have hA : refresh_order_condition sampleExecutor sampleLevel 0 = false := by
    unfold refresh_order_condition sampleExecutor samplePositionConfig sampleLevel
    norm_num
  have hB : refresh_order_condition sampleExecutor sampleLevel 1000 = true := by
    unfold refresh_order_condition sampleExecutor samplePositionConfig sampleLevel
    norm_num
  have h1 := h 0 1000
  rw [hA, hB] at h1
  exact Bool.noConfusion h1

/-- C7 as amended: each decision function is a pure function of the
executor, the order level, and the current wall-clock time: two calls
with equal executor, order-level and current-time inputs give equal
results (`early_stop_condition` does not read the clock at all). -/
theorem decision_functions_deterministic (e eOther : PositionExecutor)
    (l lOther : OrderLevel) (now nowOther : ℚ)
    (he : e = eOther) (hl : l = lOther) (hn : now = nowOther) :
    refresh_order_condition e l now =
        refresh_order_condition eOther lOther nowOther ∧
    early_stop_condition e l = early_stop_condition eOther lOther ∧
    cooldown_condition e l now = cooldown_condition eOther lOther nowOther := by
  subst he
  subst hl
  subst hn
  exact ⟨rfl, rfl, rfl⟩

/-- Witness for the amended C7 at a concrete input. -/
theorem decision_functions_deterministic_witness :
    refresh_order_condition sampleExecutor sampleLevel 0 =
        refresh_order_condition sampleExecutor sampleLevel 0 ∧
    early_stop_condition sampleExecutor sampleLevel =
        early_stop_condition sampleExecutor sampleLevel ∧
    cooldown_condition sampleExecutor sampleLevel 0 =
        cooldown_condition sampleExecutor sampleLevel 0 :=
  decision_functions_deterministic sampleExecutor sampleExecutor
    sampleLevel sampleLevel 0 0 rfl rfl rfl

end BollinGrid

namespace BacktestingPage

/-- C8: the page constructs the statistical-arbitrage strategy `StatArb`
and hands it to the backtest runner `Backtesting`, runs the backtest on
it (`run_backtesting`), and renders the text report and the figure of the
analysis built from the resulting positions. -/
theorem page_runs_statarb_backtest :
    strategy = Val.statArb ("ETH-USDT") 24 (3/2) ∧
    pageTrace[2]? = some (Action.construct (Val.backtesting strategy)) ∧
    pageTrace[3]? = some (Action.callMethod (Val.backtesting strategy)
      ("run_backtesting") (Val.positions (Val.backtesting strategy) run_params)) ∧
    backtesting_analysis =
      Val.analysis (Val.positions (Val.backtesting strategy) run_params) df_to_show ∧
    pageTrace[8]? = some (Action.renderText (Val.textReport backtesting_analysis)) ∧
    pageTrace[10]? = some (Action.renderChart (Val.figure backtesting_analysis)) :=
  ⟨rfl, rfl, rfl, rfl, rfl, rfl⟩

/-- Counterexample to C9: the page constructs three framework objects (the
`StatArb` strategy, the `Backtesting` runner and the `BacktestingAnalysis`)
and calls five framework methods, not two objects and one method as the
claim states. -/
theorem page_counts_exceed_claim :
    (pageTrace.filter isConstruct).length = 3 ∧
    (pageTrace.filter isCallMethod).length = 5 ∧
    ¬ ((pageTrace.filter isConstruct).length = 2 ∧
       (pageTrace.filter isCallMethod).length = 1) :=
  ⟨rfl, rfl, fun hcontra => absurd hcontra.1 (by decide)⟩

/-- C9 as amended: the page executes sequentially: it fetches the
dataframe, constructs three framework objects in order (the `StatArb`
strategy, the `Backtesting` runner on it, the `BacktestingAnalysis` on
the backtest's positions), calls five framework methods
(`run_backtesting`, `create_base_figure`, `add_trade_pnl`, `text_report`,
`figure`), and renders the text report and then the chart, with nothing
further. -/
theorem page_trace_sequence :
    pageTrace.length = 11 ∧
    pageTrace.head? = some (Action.fetchData df_to_show) ∧
    pageTrace.filter isConstruct =
      [Action.construct strategy, Action.construct backtesting,
       Action.construct backtesting_analysis] ∧
    pageTrace.filter isCallMethod =
      [Action.callMethod backtesting ("run_backtesting") positions,
       Action.callMethod backtesting_analysis ("create_base_figure") Val.pyNone,
       Action.callMethod backtesting_analysis ("add_trade_pnl") Val.pyNone,
       Action.callMethod backtesting_analysis ("text_report")
         (Val.textReport backtesting_analysis),
       Action.callMethod backtesting_analysis ("figure")
         (Val.figure backtesting_analysis)] ∧
    pageTrace[8]? = some (Action.renderText (Val.textReport backtesting_analysis)) ∧
    pageTrace[10]? = some (Action.renderChart (Val.figure backtesting_analysis)) :=
  ⟨rfl, rfl, rfl, rfl, rfl, rfl⟩

end BacktestingPage
